import Mathlib

/-!
Shallow embedding of the Location Insights pipeline (`src/main.py`) of the
predict-event repository: the unit normalizer `calc_meters`, the search-window
derivation of `show_location_insights`, the suggested-radius industry
resolution, and the event formatter `show_events_list` together with the
library behaviour it relies on (ISO-8601 UTC parsing, `pytz` timezone
conversion, `strftime`, and Python `:,.0f` float formatting).

Dictionary key access `event["k"]` is modelled by `Option` fields: `none`
means the key is absent (a `KeyError`, which aborts the whole call), while
JSON `null` values are modelled by an inner `Option` on the fields where the
code distinguishes presence from nullness. Numeric JSON values are modelled
by `ℚ` (exact on every value exercised here).
-/

/-! ## Calendar arithmetic (Gregorian, proleptic) -/

/-- Days from civil date (year ≥ 1) to days since the Unix epoch 1970-01-01. -/
def daysFromCivil (y m d : Nat) : Int :=
  let y' := if m ≤ 2 then y - 1 else y
  let era := y' / 400
  let yoe := y' % 400
  let mp := if m > 2 then m - 3 else m + 9
  let doy := (153 * mp + 2) / 5 + d - 1
  let doe := yoe * 365 + yoe / 4 - yoe / 100 + doy
  (era * 146097 + doe : Int) - 719468

/-- Civil date (year, month, day) from days since the Unix epoch. -/
def civilFromDays (z : Int) : Int × Nat × Nat :=
  let z' := z + 719468
  let era := Int.fdiv z' 146097
  let doe := (z' - era * 146097).toNat
  let yoe := (doe - doe / 1460 + doe / 36524 - doe / 146096) / 365
  let doy := doe - (365 * yoe + yoe / 4 - yoe / 100)
  let mp := (5 * doy + 2) / 153
  let d := doy - (153 * mp + 2) / 5 + 1
  let m := if mp < 10 then mp + 3 else mp - 9
  (era * 400 + yoe + (if m ≤ 2 then 1 else 0), m, d)

/-- Day of week of a day count since the epoch; 0 = Sunday (epoch day was a Thursday). -/
def weekdayOfDays (z : Int) : Int := (z + 4) % 7

/-- The first day count that is a Sunday and is ≥ `z`. -/
def sundayOnOrAfter (z : Int) : Int := z + (7 - weekdayOfDays z) % 7

def isLeapYear (y : Nat) : Bool := y % 4 = 0 && (y % 100 ≠ 0 || y % 400 = 0)

def daysInMonth (y m : Nat) : Nat :=
  if m = 2 then (if isLeapYear y then 29 else 28)
  else if m = 4 ∨ m = 6 ∨ m = 9 ∨ m = 11 then 30
  else 31

/-- A calendar date as produced by Python `datetime.date`. -/
structure Date where
  year : Nat
  month : Nat
  day : Nat
deriving DecidableEq, Repr

/-- `datetime.date + datetime.timedelta(days=n)`. -/
def Date.addDays (d : Date) (n : Nat) : Date :=
  let c := civilFromDays (daysFromCivil d.year d.month d.day + n)
  ⟨c.1.toNat, c.2.1, c.2.2⟩

/-! ## ISO-8601 UTC timestamp parsing

Models `dateutil.parser.parse` restricted to the Zulu-suffixed ISO form
`YYYY-MM-DDTHH:MM:SSZ` emitted by the events API; the result is the instant
as seconds since the Unix epoch. Other input shapes are outside the modelled
scope and fail. -/

def digitVal (c : Char) : Option Nat :=
  if c.isDigit then some (c.toNat - 48) else none

def twoDigits (a b : Char) : Option Nat :=
  (digitVal a).bind (fun x => (digitVal b).map (fun y => x * 10 + y))

def fourDigits (a b c d : Char) : Option Nat :=
  (twoDigits a b).bind (fun x => (twoDigits c d).map (fun y => x * 100 + y))

/-- Seconds since the epoch of a validated civil datetime. -/
def epochOfCivil (yr mo dy hr mi se : Nat) : Option Int :=
  if 1 ≤ yr ∧ 1 ≤ mo ∧ mo ≤ 12 ∧ 1 ≤ dy ∧ dy ≤ daysInMonth yr mo ∧
      hr ≤ 23 ∧ mi ≤ 59 ∧ se ≤ 59 then
    some (daysFromCivil yr mo dy * 86400 + (hr * 3600 + mi * 60 + se : Nat))
  else none

def parse_date (s : String) : Option Int :=
  match s.data with
  | [y1, y2, y3, y4, p1, m1, m2, p2, d1, d2, p3, h1, h2, p4, n1, n2, p5, c1, c2, p6] =>
    if p1 = '-' && p2 = '-' && p3 = 'T' && p4 = ':' && p5 = ':' && p6 = 'Z' then
      (fourDigits y1 y2 y3 y4).bind fun yr =>
      (twoDigits m1 m2).bind fun mo =>
      (twoDigits d1 d2).bind fun dy =>
      (twoDigits h1 h2).bind fun hr =>
      (twoDigits n1 n2).bind fun mi =>
      (twoDigits c1 c2).bind fun se =>
      epochOfCivil yr mo dy hr mi se
    else none
  | _ => none

/-! ## Timezone database

Models the `pytz` zone lookup restricted to the zones the specification
exercises; an unknown zone name raises `UnknownTimeZoneError` in the code,
modelled as `none`. For `America/New_York` the post-2007 United States DST
rule is modelled (EDT, UTC−4, from 02:00 local on the second Sunday of March
to 02:00 local on the first Sunday of November; EST, UTC−5, otherwise), which
is the rule `pytz` applies to every instant the specification mentions. -/

inductive TZInfo where
  | utc
  | americaNewYork
deriving DecidableEq, Repr

def pytz_timezone : String → Option TZInfo
  | "UTC" => some .utc
  | "America/New_York" => some .americaNewYork
  | _ => none

/-- UTC instant of the DST start in New York for year `y`: 02:00 EST = 07:00 UTC,
second Sunday of March. -/
def dstStartNY (y : Nat) : Int :=
  (sundayOnOrAfter (daysFromCivil y 3 1) + 7) * 86400 + 7 * 3600

/-- UTC instant of the DST end in New York for year `y`: 02:00 EDT = 06:00 UTC,
first Sunday of November. -/
def dstEndNY (y : Nat) : Int :=
  sundayOnOrAfter (daysFromCivil y 11 1) * 86400 + 6 * 3600

/-- UTC offset in seconds applied by `datetime.astimezone` at instant `t`. -/
def utcoffset : TZInfo → Int → Int
  | .utc, _ => 0
  | .americaNewYork, t =>
    let y := (civilFromDays (Int.fdiv t 86400)).1.toNat
    if dstStartNY y ≤ t ∧ t < dstEndNY y then -14400 else -18000

/-! ## `strftime("%d-%b-%Y %H:%M")` -/

def monthAbbrev : Nat → String
  | 1 => "Jan" | 2 => "Feb" | 3 => "Mar" | 4 => "Apr" | 5 => "May" | 6 => "Jun"
  | 7 => "Jul" | 8 => "Aug" | 9 => "Sep" | 10 => "Oct" | 11 => "Nov" | 12 => "Dec"
  | _ => ""

def pad2 (n : Nat) : String :=
  if n < 10 then "0" ++ toString n else toString n

/-- Format local-time seconds (UTC epoch seconds shifted by the zone offset)
as `DD-Mon-YYYY HH:MM`. -/
def strftimeDmyHm (t : Int) : String :=
  let days := Int.fdiv t 86400
  let sod := (t - days * 86400).toNat
  let c := civilFromDays days
  pad2 c.2.2 ++ "-" ++ monthAbbrev c.2.1 ++ "-" ++ toString c.1 ++ " " ++
    pad2 (sod / 3600) ++ ":" ++ pad2 (sod % 3600 / 60)

/-- `parse_date(x).astimezone(pytz.timezone(z)).strftime("%d-%b-%Y %H:%M")`
applied to an already-parsed instant. -/
def localFormat (tz : TZInfo) (t : Int) : String :=
  strftimeDmyHm (t + utcoffset tz t)

/-! ## Python `f"{x:,.0f}"` currency formatting -/

/-- Round to the nearest integer, ties to even — the rounding Python float
formatting applies for `.0f`. Computed on the reduced numerator and
denominator: with `n = ⌊q⌋` and `rem = num − n·den`, the fractional part
`rem/den` is compared against one half by cross-multiplication. -/
def roundHalfEven (q : ℚ) : Int :=
  let n := Int.fdiv q.num q.den
  let rem := q.num - n * q.den
  if 2 * rem < (q.den : Int) then n
  else if (q.den : Int) < 2 * rem then n + 1
  else if n % 2 = 0 then n else n + 1

/-- Insert a comma before every third digit, operating on the reversed digit list. -/
def commaGroupAux : List Char → Nat → List Char
  | [], _ => []
  | c :: cs, k =>
    if k ≠ 0 ∧ k % 3 = 0 then ',' :: c :: commaGroupAux cs (k + 1)
    else c :: commaGroupAux cs (k + 1)

def commaGroup (n : Nat) : String :=
  String.mk ((commaGroupAux (toString n).data.reverse 0).reverse)

/-- `f"${x:,.0f}"`: round half to even to whole units, comma-group thousands,
prefix a dollar sign. (The `-0` rendering of negative floats that round to
zero is not modelled; no negative spend value occurs here.) -/
def pyCurrency (q : ℚ) : String :=
  let r := roundHalfEven q
  "$" ++ (if r < 0 then "-" else "") ++ commaGroup r.natAbs

/-! ## `calc_meters` (src/main.py lines 142-150) -/

def calc_meters (value : ℚ) (unit : String) : ℚ :=
  if unit = "mi" then value * 1609
  else if unit = "ft" then value * 0.3048
  else if unit = "km" then value * 1000
  else value

/-! ## Event data model

`EventRecord` models the raw JSON event dictionary consumed by
`show_events_list`. An outer `none` means the key is absent from the
dictionary (bracket access raises `KeyError`); where the code distinguishes
a present-but-`null` value, the field carries an inner `Option` and
`some none` models JSON `null`. -/

structure Entity where
  type : Option String
  name : Option String
  formatted_address : Option String
deriving DecidableEq, Repr

structure Geo where
  placekey : Option String
deriving DecidableEq, Repr

structure SpendIndustries where
  hospitality : Option (Option ℚ)
deriving DecidableEq, Repr

structure EventRecord where
  title : Option String
  category : Option String
  phq_attendance : Option (Option Int)
  start : Option String
  end_ : Option String
  predicted_end : Option (Option String)
  timezone : Option String
  entities : Option (List Entity)
  geo : Option Geo
  predicted_event_spend : Option (Option ℚ)
  predicted_event_spend_industries : Option SpendIndustries
deriving DecidableEq, Repr

/-- One row of the displayed events table (src/main.py lines 162-188). -/
structure EventRow where
  title : String
  phq_attendance : Int
  category : String
  start_local : String
  end_local : String
  predicted_end_local : String
  venue_name : String
  venue_address : String
  placekey : String
  predicted_event_spend : String
  predicted_event_spend_hospitality : String
deriving DecidableEq, Repr

/-! ## Per-cell derivations of `show_events_list` (src/main.py lines 160-188) -/

/-- Line 160: `next(filter(lambda entity: entity["type"] == "venue", event["entities"]), None)`.
The outer `Option` is the `KeyError` channel (an entity before the first venue
that lacks a `type` key aborts the call); the inner `Option` is the found venue. -/
def findVenue : List Entity → Option (Option Entity)
  | [] => some none
  | e :: rest =>
    match e.type with
    | none => none
    | some t => if t = "venue" then some (some e) else findVenue rest

def venueOf (e : EventRecord) : Option (Option Entity) :=
  e.entities.bind findVenue

/-- Python truthiness of the JSON value of `phq_attendance`:
`event["phq_attendance"] if event["phq_attendance"] else 0` (line 165). -/
def attendanceValue : Option Int → Int
  | none => 0
  | some n => if n ≠ 0 then n else 0

def attendanceCell (e : EventRecord) : Option Int :=
  e.phq_attendance.map attendanceValue

/-- Lines 167-169: `parse_date(event["start"]).astimezone(pytz.timezone(event["timezone"])).strftime(...)`. -/
def startLocalCell (e : EventRecord) : Option String :=
  e.start.bind fun s =>
  (parse_date s).bind fun t =>
  e.timezone.bind fun z =>
  (pytz_timezone z).map fun tz =>
  localFormat tz t

/-- Lines 170-172: same conversion for `event["end"]`. -/
def endLocalCell (e : EventRecord) : Option String :=
  e.end_.bind fun s =>
  (parse_date s).bind fun t =>
  e.timezone.bind fun z =>
  (pytz_timezone z).map fun tz =>
  localFormat tz t

/-- Lines 173-177: the conversion is applied only when `predicted_end` is a
present, non-null key; otherwise the cell is the empty string. -/
def predictedEndCell (e : EventRecord) : Option String :=
  match e.predicted_end with
  | some (some s) =>
    (parse_date s).bind fun t =>
    e.timezone.bind fun z =>
    (pytz_timezone z).map fun tz =>
    localFormat tz t
  | _ => some ""

/-- Line 178: `venue["name"] if venue else ""` (`KeyError` when the venue lacks a name). -/
def venueNameCell : Option Entity → Option String
  | some v => v.name
  | none => some ""

/-- Line 179: `venue["formatted_address"] if venue else ""`. -/
def venueAddressCell : Option Entity → Option String
  | some v => v.formatted_address
  | none => some ""

/-- Line 180: `event["geo"]["placekey"] if "geo" in event and "placekey" in event["geo"] else ""`.
Both levels are membership-checked, so this cell never raises. -/
def placekeyCell (e : EventRecord) : String :=
  match e.geo with
  | some g => g.placekey.getD ""
  | none => ""

/-- Lines 181-183: whole-dollar currency when `predicted_event_spend` is a
present, non-null key; empty string otherwise. -/
def spendCell (e : EventRecord) : String :=
  match e.predicted_event_spend with
  | some (some q) => pyCurrency q
  | _ => ""

/-- Lines 184-187: the outer key is membership-checked but
`event["predicted_event_spend_industries"]["hospitality"]` is accessed
directly, so a present industries object without a `hospitality` key raises
`KeyError` (outer `none`); a null hospitality value yields the empty string. -/
def spendHospCell (e : EventRecord) : Option String :=
  match e.predicted_event_spend_industries with
  | none => some ""
  | some ind =>
    match ind.hospitality with
    | none => none
    | some none => some ""
    | some (some q) => some (pyCurrency q)

/-- The row dictionary built for one event (lines 160-188); `none` models any
exception raised while evaluating the dictionary literal. -/
def rowOf (e : EventRecord) : Option EventRow :=
  (venueOf e).bind fun venue =>
  e.title.bind fun t =>
  (attendanceCell e).bind fun att =>
  e.category.bind fun c =>
  (startLocalCell e).bind fun sl =>
  (endLocalCell e).bind fun el =>
  (predictedEndCell e).bind fun pel =>
  (venueNameCell venue).bind fun vn =>
  (venueAddressCell venue).bind fun va =>
  (spendHospCell e).map fun sph =>
  ⟨t, att, c, sl, el, pel, vn, va, placekeyCell e, spendCell e, sph⟩

/-- The per-record loop of `show_events_list` (lines 157-191): one row is
appended per record, in order; an exception on any record aborts the whole
call with no partial output. -/
def show_events_list : List EventRecord → Option (List EventRow)
  | [] => some []
  | e :: rest =>
    (rowOf e).bind fun r =>
    (show_events_list rest).map fun rs =>
    r :: rs

/-! ## `show_location_insights` derivations (src/main.py lines 87-93) -/

/-- Lines 87-88: `date_from = datetime.datetime.now().date()`,
`date_to = date_from + datetime.timedelta(days=90)`; `today` stands for
`now().date()`. -/
def searchWindow (today : Date) : Date × Date :=
  (today, today.addDays 90)

/-- Line 91: `st.secrets["suggested_radius_industry"] if
"suggested_radius_industry" in st.secrets else "accommodation"`; the argument
is the configured value when the key is present. This value is what line 93
passes as the `industry` keyword of `fetch_suggested_radius`, so the
signature default `"parking"` of line 135 is never used on this path. -/
def suggested_radius_industry (configured : Option String) : String :=
  match configured with
  | some v => v
  | none => "accommodation"

/-! ## Helper lemmas -/

/-- Inverting a successful row derivation: every cell evaluated without a
`KeyError` and the row holds the values the cells produced. -/
theorem rowOf_inv {e : EventRecord} {r : EventRow} (h : rowOf e = some r) :
    ∃ v, venueOf e = some v ∧ e.title = some r.title ∧
      attendanceCell e = some r.phq_attendance ∧ e.category = some r.category ∧
      startLocalCell e = some r.start_local ∧ endLocalCell e = some r.end_local ∧
      predictedEndCell e = some r.predicted_end_local ∧
      venueNameCell v = some r.venue_name ∧ venueAddressCell v = some r.venue_address ∧
      spendHospCell e = some r.predicted_event_spend_hospitality ∧
      r.placekey = placekeyCell e ∧ r.predicted_event_spend = spendCell e := by
  simp only [rowOf, Option.bind_eq_some, Option.map_eq_some'] at h
  obtain ⟨v, hv, t, ht, a, ha, c, hc, sl, hsl, el, hel, pl, hpl, vn, hvn, va, hva, sph,
    hsph, hr⟩ := h
  subst hr
  exact ⟨v, hv, ht, ha, hc, hsl, hel, hpl, hvn, hva, hsph, rfl, rfl⟩

/-- Building a successful row from successful cells. -/
theorem rowOf_mk {e : EventRecord} {v : Option Entity} {t : String} {a : Int} {c : String}
    {sl el pl vn va sph : String}
    (hv : venueOf e = some v) (ht : e.title = some t) (ha : attendanceCell e = some a)
    (hc : e.category = some c) (hsl : startLocalCell e = some sl)
    (hel : endLocalCell e = some el) (hpl : predictedEndCell e = some pl)
    (hn : venueNameCell v = some vn) (haddr : venueAddressCell v = some va)
    (hh : spendHospCell e = some sph) :
    rowOf e = some ⟨t, a, c, sl, el, pl, vn, va, placekeyCell e, spendCell e, sph⟩ := by
  simp [rowOf, hv, ht, ha, hc, hsl, hel, hpl, hn, haddr, hh]

theorem rowOf_none_of_title {e : EventRecord} (h : e.title = none) : rowOf e = none := by
  cases hr : rowOf e with
  | none => rfl
  | some r =>
    obtain ⟨v, -, ht, -⟩ := rowOf_inv hr
    rw [h] at ht
    cases ht

theorem rowOf_none_of_category {e : EventRecord} (h : e.category = none) : rowOf e = none := by
  cases hr : rowOf e with
  | none => rfl
  | some r =>
    obtain ⟨v, -, -, -, hc, -⟩ := rowOf_inv hr
    rw [h] at hc
    cases hc

theorem rowOf_none_of_attendance {e : EventRecord} (h : e.phq_attendance = none) :
    rowOf e = none := by
  cases hr : rowOf e with
  | none => rfl
  | some r =>
    obtain ⟨v, -, -, ha, -⟩ := rowOf_inv hr
    rw [attendanceCell, h] at ha
    cases ha

theorem rowOf_none_of_entities {e : EventRecord} (h : e.entities = none) : rowOf e = none := by
  cases hr : rowOf e with
  | none => rfl
  | some r =>
    obtain ⟨v, hv, -⟩ := rowOf_inv hr
    rw [venueOf, h] at hv
    cases hv

theorem startLocalCell_inv {e : EventRecord} {out : String} (h : startLocalCell e = some out) :
    ∃ s t z tz, e.start = some s ∧ parse_date s = some t ∧ e.timezone = some z ∧
      pytz_timezone z = some tz ∧ out = localFormat tz t := by
  simp only [startLocalCell, Option.bind_eq_some, Option.map_eq_some'] at h
  obtain ⟨s, hs, t, ht, z, hz, tz, htz, hout⟩ := h
  exact ⟨s, t, z, tz, hs, ht, hz, htz, hout.symm⟩

theorem endLocalCell_inv {e : EventRecord} {out : String} (h : endLocalCell e = some out) :
    ∃ s t z tz, e.end_ = some s ∧ parse_date s = some t ∧ e.timezone = some z ∧
      pytz_timezone z = some tz ∧ out = localFormat tz t := by
  simp only [endLocalCell, Option.bind_eq_some, Option.map_eq_some'] at h
  obtain ⟨s, hs, t, ht, z, hz, tz, htz, hout⟩ := h
  exact ⟨s, t, z, tz, hs, ht, hz, htz, hout.symm⟩

theorem rowOf_none_of_start {e : EventRecord} (h : e.start = none) : rowOf e = none := by
  cases hr : rowOf e with
  | none => rfl
  | some r =>
    obtain ⟨v, -, -, -, -, hsl, -⟩ := rowOf_inv hr
    obtain ⟨s, -, -, -, hs, -⟩ := startLocalCell_inv hsl
    rw [h] at hs
    cases hs

theorem rowOf_none_of_end {e : EventRecord} (h : e.end_ = none) : rowOf e = none := by
  cases hr : rowOf e with
  | none => rfl
  | some r =>
    obtain ⟨v, -, -, -, -, -, hel, -⟩ := rowOf_inv hr
    obtain ⟨s, -, -, -, hs, -⟩ := endLocalCell_inv hel
    rw [h] at hs
    cases hs

theorem rowOf_none_of_timezone {e : EventRecord} (h : e.timezone = none) : rowOf e = none := by
  cases hr : rowOf e with
  | none => rfl
  | some r =>
    obtain ⟨v, -, -, -, -, hsl, -⟩ := rowOf_inv hr
    obtain ⟨s, t, z, tz, -, -, hz, -⟩ := startLocalCell_inv hsl
    rw [h] at hz
    cases hz

/-- A record whose row derivation raises makes the whole loop return nothing. -/
theorem show_events_list_none_of_mem {evs : List EventRecord} {e : EventRecord}
    (hm : e ∈ evs) (hr : rowOf e = none) : show_events_list evs = none := by
  induction evs with
  | nil => cases hm
  | cons x xs ih =>
    rcases List.mem_cons.mp hm with h | h
    · subst h
      simp [show_events_list, hr]
    · cases hx : rowOf x <;> simp [show_events_list, hx, ih h]

/-- A successful loop yields one row per record, in input order. -/
theorem show_events_list_get {evs : List EventRecord} {rows : List EventRow}
    (h : show_events_list evs = some rows) :
    rows.length = evs.length ∧
      ∀ i (hi : i < evs.length) (hri : i < rows.length),
        rowOf (evs.get ⟨i, hi⟩) = some (rows.get ⟨i, hri⟩) := by
  induction evs generalizing rows with
  | nil =>
    simp only [show_events_list, Option.some.injEq] at h
    subst h
    simp
  | cons x xs ih =>
    simp only [show_events_list, Option.bind_eq_some, Option.map_eq_some'] at h
    obtain ⟨r, hr, rs, hrs, hcons⟩ := h
    subst hcons
    obtain ⟨hlen, hget⟩ := ih hrs
    refine ⟨by simp [hlen], ?_⟩
    intro i hi hri
    cases i with
    | zero => simpa using hr
    | succ n => simpa using hget n (by simpa using hi) (by simpa using hri)

/-- A venue returned by the entity scan is an element of the list with type `"venue"`. -/
theorem findVenue_some_venue {es : List Entity} {ven : Entity}
    (h : findVenue es = some (some ven)) : ven ∈ es ∧ ven.type = some "venue" := by
  induction es with
  | nil => simp [findVenue] at h
  | cons e rest ih =>
    rw [findVenue] at h
    cases he : e.type with
    | none => rw [he] at h; cases h
    | some t =>
      rw [he] at h
      simp only [] at h
      by_cases hv : t = "venue"
      · rw [if_pos hv] at h
        obtain rfl : e = ven := Option.some.inj (Option.some.inj h)
        exact ⟨List.mem_cons_self _ _, by rw [he, hv]⟩
      · rw [if_neg hv] at h
        obtain ⟨hm, hty⟩ := ih h
        exact ⟨List.mem_cons_of_mem _ hm, hty⟩

/-- First match wins: when the scan succeeds on a list whose first venue-typed
entity is `ven`, it returns `ven`. -/
theorem findVenue_first {pre : List Entity} {ven : Entity} {post : List Entity} {v : Option Entity}
    (h : findVenue (pre ++ ven :: post) = some v)
    (hpre : ∀ x ∈ pre, x.type ≠ some "venue") (hven : ven.type = some "venue") :
    v = some ven := by
  induction pre with
  | nil =>
    rw [List.nil_append, findVenue, hven] at h
    simp only [if_true] at h
    exact (Option.some.inj h).symm
  | cons x xs ih =>
    rw [List.cons_append, findVenue] at h
    cases hx : x.type with
    | none => rw [hx] at h; cases h
    | some t =>
      rw [hx] at h
      simp only [] at h
      have ht : t ≠ "venue" := by
        intro hcontra
        exact hpre x (List.mem_cons_self _ _) (by rw [hx, hcontra])
      rw [if_neg ht] at h
      exact ih h fun y hy => hpre y (List.mem_cons_of_mem _ hy)

/-! ## Concrete records -/

/-- A fully-populated event record: every key present, no null values. -/
def evFull : EventRecord :=
  ⟨some "Music Festival", some "concerts", some (some 5000),
   some "2024-06-01T20:00:00Z", some "2024-06-01T23:00:00Z",
   some (some "2024-06-02T01:00:00Z"), some "America/New_York",
   some [⟨some "event-group", none, none⟩, ⟨some "venue", some "Arena", some "1 Main St"⟩],
   some ⟨some "zzw-222@627-wc8-7h5"⟩, some (some (mkRat 2469 2)),
   some ⟨some (some (mkRat 2839 5))⟩⟩

/-- Mandatory keys present; every optional field absent or null. The
`phq_attendance` key is present with a null value. -/
def evOptionalNull : EventRecord :=
  ⟨some "Street Fair", some "festivals", some none,
   some "2024-06-01T20:00:00Z", some "2024-06-01T23:00:00Z",
   none, some "America/New_York", some [], none, none, none⟩

/-- As `evOptionalNull` but with the `phq_attendance` key itself absent. -/
def evNoAttendanceKey : EventRecord := { evOptionalNull with phq_attendance := none }

def evNoTitle : EventRecord := { evFull with title := none }

def evNoStart : EventRecord := { evFull with start := none }

/-- Industries object present but without a `hospitality` key. -/
def evHospKeyMissing : EventRecord :=
  { evFull with predicted_event_spend_industries := some ⟨none⟩ }

/-- Industries object present with a null `hospitality` value. -/
def evHospNull : EventRecord :=
  { evFull with predicted_event_spend_industries := some ⟨some none⟩ }

def evSpendNull : EventRecord := { evFull with predicted_event_spend := some none }

/-- No venue-typed entity. -/
def evNoVenue : EventRecord :=
  { evFull with entities := some [⟨some "event-group", none, none⟩] }

/-! ## Claims -/

/-- C4: `calc_meters` returns `v * 1609` for "mi", `v * 0.3048` for "ft",
`v * 1000` for "km", and `v` unchanged for every other unit string, with no
rounding applied. -/
theorem c4_calc_meters_conversions (v : ℚ) (u : String)
    (h1 : u ≠ "mi") (h2 : u ≠ "ft") (h3 : u ≠ "km") :
    calc_meters v "mi" = v * 1609 ∧ calc_meters v "ft" = v * 0.3048 ∧
      calc_meters v "km" = v * 1000 ∧ calc_meters v u = v := by
  refine ⟨by simp [calc_meters], by simp [calc_meters], by simp [calc_meters], ?_⟩
  simp [calc_meters, h1, h2, h3]

theorem c4_calc_meters_conversions_witness :
    calc_meters 2 "mi" = 2 * 1609 ∧ calc_meters 2 "ft" = 2 * 0.3048 ∧
      calc_meters 2 "km" = 2 * 1000 ∧ calc_meters 2 "m" = 2 :=
  c4_calc_meters_conversions 2 "m" (by decide) (by decide) (by decide)

/-- C8: the search window is `[today, today + 90 days]`, a pure function of
the current date alone (no timezone input); for today = 2024-03-01 it is
[2024-03-01, 2024-05-30]. -/
theorem c8_search_window :
    (∀ today : Date, searchWindow today = (today, today.addDays 90)) ∧
      searchWindow ⟨2024, 3, 1⟩ = (⟨2024, 3, 1⟩, ⟨2024, 5, 30⟩) :=
  ⟨fun _ => rfl, by decide⟩

/-- C9: when no `suggested_radius_industry` is configured the radius
suggestion is requested with "accommodation"; a configured value is used
verbatim and is never replaced by the default. -/
theorem c9_default_industry :
    suggested_radius_industry none = "accommodation" ∧
      ∀ v : String, suggested_radius_industry (some v) = v :=
  ⟨rfl, fun _ => rfl⟩

/-- C2: a record missing the `title` or the `category` key makes the whole
batch formatting call fail; no partial row sequence is produced. -/
theorem c2_missing_title_or_category_fatal (evs : List EventRecord) (e : EventRecord)
    (hmem : e ∈ evs) (hm : e.title = none ∨ e.category = none) :
    show_events_list evs = none := by
  rcases hm with h | h
  · exact show_events_list_none_of_mem hmem (rowOf_none_of_title h)
  · exact show_events_list_none_of_mem hmem (rowOf_none_of_category h)

theorem c2_missing_title_or_category_fatal_witness :
    show_events_list [evFull, evNoTitle] = none :=
  c2_missing_title_or_category_fatal _ evNoTitle (by decide) (Or.inl rfl)

/-- C10: the fatal keys are wider than title/category — a record missing any
of `start`, `end`, `timezone`, `entities`, or `phq_attendance` (the key, as
opposed to a null value) makes the whole batch formatting call fail. -/
theorem c10_more_mandatory_keys (evs : List EventRecord) (e : EventRecord)
    (hmem : e ∈ evs)
    (hm : e.start = none ∨ e.end_ = none ∨ e.timezone = none ∨ e.entities = none ∨
      e.phq_attendance = none) :
    show_events_list evs = none := by
  rcases hm with h | h | h | h | h
  · exact show_events_list_none_of_mem hmem (rowOf_none_of_start h)
  · exact show_events_list_none_of_mem hmem (rowOf_none_of_end h)
  · exact show_events_list_none_of_mem hmem (rowOf_none_of_timezone h)
  · exact show_events_list_none_of_mem hmem (rowOf_none_of_entities h)
  · exact show_events_list_none_of_mem hmem (rowOf_none_of_attendance h)

theorem c10_more_mandatory_keys_witness : show_events_list [evNoStart] = none :=
  c10_more_mandatory_keys _ evNoStart (by decide) (Or.inl rfl)

/-- C5 counterexample: with `predicted_event_spend = 1234.5` the cell renders
as "$1,234" — Python `.0f` formatting rounds ties to even — not "$1,235" as
the claim states. -/
theorem c5_counterexample :
    evFull.predicted_event_spend = some (some (1234.5 : ℚ)) ∧
      (rowOf evFull).map EventRow.predicted_event_spend ≠ some "$1,235" ∧
      (rowOf evFull).map EventRow.predicted_event_spend = some "$1,234" := by
  refine ⟨?_, by decide, by decide⟩
  show some (some (mkRat 2469 2)) = some (some (1234.5 : ℚ))
  rw [Rat.mkRat_eq_div]
  norm_num

/-- C5 amended: `predicted_event_spend = 1234.5` renders as "$1,234" (rounded
half-to-even to whole dollars, comma-grouped, no decimals), and a null value
renders as the empty string. -/
theorem c5_amended_currency :
    evFull.predicted_event_spend = some (some (1234.5 : ℚ)) ∧
      (rowOf evFull).map EventRow.predicted_event_spend = some "$1,234" ∧
      (rowOf evSpendNull).map EventRow.predicted_event_spend = some "" := by
  refine ⟨?_, by decide, by decide⟩
  show some (some (mkRat 2469 2)) = some (some (1234.5 : ℚ))
  rw [Rat.mkRat_eq_div]
  norm_num

/-- C1 counterexample: a record with all the claim's mandatory fields present
but with the `phq_attendance` key absent makes the row derivation — and the
whole batch — fail with a `KeyError` instead of producing the placeholder 0. -/
theorem c1_counterexample :
    evNoAttendanceKey.title ≠ none ∧ evNoAttendanceKey.category ≠ none ∧
      evNoAttendanceKey.start ≠ none ∧ evNoAttendanceKey.end_ ≠ none ∧
      evNoAttendanceKey.timezone ≠ none ∧ evNoAttendanceKey.entities ≠ none ∧
      rowOf evNoAttendanceKey = none ∧
      show_events_list [evNoAttendanceKey] = none := by
  decide

/-- C1 amended: for a record with the mandatory keys present (title, category,
start, end, timezone, entities — and, unlike the original claim, also the
`phq_attendance` key itself, and the `hospitality` key inside any present
industries object, since both are bracket accesses that raise `KeyError`
when absent — see the counterexample), formatting succeeds, and each of the
listed optional fields that is missing or null yields its documented
placeholder, in any mix and independently of the others: null
`phq_attendance` → 0, missing-or-null `predicted_end` → "", missing `geo` or
`geo.placekey` → "", missing-or-null `predicted_event_spend` → "", missing
industries object or null hospitality value → "". -/
theorem c1_amended_placeholders (e : EventRecord) (t c s1 s2 z : String)
    (ts1 ts2 : Int) (tz : TZInfo) (es : List Entity) (v : Option Entity) (av : Option Int)
    (ht : e.title = some t) (hc : e.category = some c)
    (ha : e.phq_attendance = some av)
    (hs : e.start = some s1) (hp1 : parse_date s1 = some ts1)
    (he : e.end_ = some s2) (hp2 : parse_date s2 = some ts2)
    (hz : e.timezone = some z) (htz : pytz_timezone z = some tz)
    (hes : e.entities = some es) (hfv : findVenue es = some v)
    (hvn : venueNameCell v ≠ none) (hva : venueAddressCell v ≠ none)
    (hpe : e.predicted_end = none ∨ e.predicted_end = some none ∨
      ∃ s3 ts3, e.predicted_end = some (some s3) ∧ parse_date s3 = some ts3)
    (hsh : e.predicted_event_spend_industries = none ∨
      ∃ hosp, e.predicted_event_spend_industries = some ⟨some hosp⟩) :
    ∃ r, rowOf e = some r ∧
      (e.phq_attendance = some none → r.phq_attendance = 0) ∧
      ((e.predicted_end = none ∨ e.predicted_end = some none) →
        r.predicted_end_local = "") ∧
      ((e.geo = none ∨ ∃ g, e.geo = some g ∧ g.placekey = none) → r.placekey = "") ∧
      ((e.predicted_event_spend = none ∨ e.predicted_event_spend = some none) →
        r.predicted_event_spend = "") ∧
      ((e.predicted_event_spend_industries = none ∨
          e.predicted_event_spend_industries = some ⟨some none⟩) →
        r.predicted_event_spend_hospitality = "") := by
  obtain ⟨vn, hvn'⟩ := Option.ne_none_iff_exists'.mp hvn
  obtain ⟨va, hva'⟩ := Option.ne_none_iff_exists'.mp hva
  have hvenue : venueOf e = some v := by simp [venueOf, hes, hfv]
  have hatt : attendanceCell e = some (attendanceValue av) := by simp [attendanceCell, ha]
  have hsl : startLocalCell e = some (localFormat tz ts1) := by
    simp [startLocalCell, hs, hp1, hz, htz]
  have hel : endLocalCell e = some (localFormat tz ts2) := by
    simp [endLocalCell, he, hp2, hz, htz]
  obtain ⟨pel, hpel, hpelBlank⟩ :
      ∃ pel, predictedEndCell e = some pel ∧
        ((e.predicted_end = none ∨ e.predicted_end = some none) → pel = "") := by
    rcases hpe with h | h | ⟨s3, ts3, h, hp3⟩
    · exact ⟨"", by simp [predictedEndCell, h], fun _ => rfl⟩
    · exact ⟨"", by simp [predictedEndCell, h], fun _ => rfl⟩
    · refine ⟨localFormat tz ts3, by simp [predictedEndCell, h, hp3, hz, htz], ?_⟩
      intro hd
      rcases hd with h' | h' <;> rw [h] at h' <;> simp at h'
  obtain ⟨sph, hsph, hsphBlank⟩ :
      ∃ sph, spendHospCell e = some sph ∧
        ((e.predicted_event_spend_industries = none ∨
          e.predicted_event_spend_industries = some ⟨some none⟩) → sph = "") := by
    rcases hsh with h | ⟨hosp, h⟩
    · exact ⟨"", by simp [spendHospCell, h], fun _ => rfl⟩
    · cases hosp with
      | none => exact ⟨"", by simp [spendHospCell, h], fun _ => rfl⟩
      | some q =>
        refine ⟨pyCurrency q, by simp [spendHospCell, h], ?_⟩
        intro hd
        rcases hd with h' | h' <;> rw [h] at h' <;> simp at h'
  refine ⟨_, rowOf_mk hvenue ht hatt hc hsl hel hpel hvn' hva' hsph, ?_, hpelBlank, ?_, ?_,
    hsphBlank⟩
  · intro hnull
    rw [ha] at hnull
    cases Option.some.inj hnull
    rfl
  · intro hd
    rcases hd with h | ⟨g, hg', hpk'⟩
    · simp [placekeyCell, h]
    · simp [placekeyCell, hg', hpk']
  · intro hd
    rcases hd with h | h <;> simp [spendCell, h]

/-- A mixed-degradation record: only `predicted_end` is missing, every other
optional field is populated. -/
def evMixed : EventRecord := { evFull with predicted_end := none }

theorem c1_amended_placeholders_witness :
    ∃ r, rowOf evMixed = some r ∧
      (evMixed.phq_attendance = some none → r.phq_attendance = 0) ∧
      ((evMixed.predicted_end = none ∨ evMixed.predicted_end = some none) →
        r.predicted_end_local = "") ∧
      ((evMixed.geo = none ∨ ∃ g, evMixed.geo = some g ∧ g.placekey = none) →
        r.placekey = "") ∧
      ((evMixed.predicted_event_spend = none ∨
          evMixed.predicted_event_spend = some none) →
        r.predicted_event_spend = "") ∧
      ((evMixed.predicted_event_spend_industries = none ∨
          evMixed.predicted_event_spend_industries = some ⟨some none⟩) →
        r.predicted_event_spend_hospitality = "") :=
  c1_amended_placeholders evMixed "Music Festival" "concerts"
    "2024-06-01T20:00:00Z" "2024-06-01T23:00:00Z" "America/New_York"
    1717272000 1717282800 TZInfo.americaNewYork
    [⟨some "event-group", none, none⟩, ⟨some "venue", some "Arena", some "1 Main St"⟩]
    (some ⟨some "venue", some "Arena", some "1 Main St"⟩) (some 5000)
    rfl rfl rfl rfl (by decide) rfl (by decide) rfl (by decide) rfl (by decide)
    (by decide) (by decide) (Or.inl rfl) (Or.inr ⟨some (mkRat 2839 5), rfl⟩)

/-- C3 counterexample: a record whose `predicted_event_spend_industries`
object is present but has no `hospitality` entry makes the row derivation
fail with a `KeyError` instead of producing the empty string. -/
theorem c3_counterexample :
    evHospKeyMissing.predicted_event_spend_industries ≠ none ∧
      rowOf evHospKeyMissing = none ∧
      show_events_list [evHospKeyMissing] = none := by
  decide

/-- C3 amended: the hospitality cell is the empty string when the
`predicted_event_spend_industries` object is absent, and when it is present
with a null `hospitality` value; a present industries object whose
`hospitality` key is absent instead raises a `KeyError` (see the
counterexample), so absence is not tolerated independently at the inner
level. -/
theorem c3_amended_hospitality (e : EventRecord) (v : Option Entity) (t : String) (a : Int)
    (c sl el pl vn va : String)
    (hv : venueOf e = some v) (ht : e.title = some t) (ha : attendanceCell e = some a)
    (hc : e.category = some c) (hsl : startLocalCell e = some sl)
    (hel : endLocalCell e = some el) (hpl : predictedEndCell e = some pl)
    (hn : venueNameCell v = some vn) (haddr : venueAddressCell v = some va)
    (hh : e.predicted_event_spend_industries = none ∨
      e.predicted_event_spend_industries = some ⟨some none⟩) :
    ∃ r, rowOf e = some r ∧ r.predicted_event_spend_hospitality = "" := by
  have hhosp : spendHospCell e = some "" := by
    rcases hh with h | h <;> simp [spendHospCell, h]
  exact ⟨_, rowOf_mk hv ht ha hc hsl hel hpl hn haddr hhosp, rfl⟩

theorem c3_amended_hospitality_witness :
    ∃ r, rowOf evHospNull = some r ∧ r.predicted_event_spend_hospitality = "" :=
  c3_amended_hospitality evHospNull (some ⟨some "venue", some "Arena", some "1 Main St"⟩)
    "Music Festival" 5000 "concerts" "01-Jun-2024 16:00" "01-Jun-2024 19:00"
    "01-Jun-2024 21:00" "Arena" "1 Main St"
    (by decide) rfl (by decide) rfl (by decide) (by decide) (by decide) rfl rfl
    (Or.inr rfl)

/-- C6: every successful row parses the record's own `start` and `end` as UTC
instants, converts them with the record's own `timezone`, and formats them as
DD-Mon-YYYY HH:MM; concretely, start = "2024-06-01T20:00:00Z" with timezone
"America/New_York" renders as "01-Jun-2024 16:00". -/
theorem c6_timezone_per_record :
    (∀ e r, rowOf e = some r →
      ∃ s ts z tz s2 ts2, e.start = some s ∧ parse_date s = some ts ∧
        e.timezone = some z ∧ pytz_timezone z = some tz ∧
        r.start_local = localFormat tz ts ∧ e.end_ = some s2 ∧
        parse_date s2 = some ts2 ∧ r.end_local = localFormat tz ts2) ∧
    evFull.start = some "2024-06-01T20:00:00Z" ∧
    evFull.timezone = some "America/New_York" ∧
    (rowOf evFull).map EventRow.start_local = some "01-Jun-2024 16:00" := by
  refine ⟨?_, rfl, rfl, by decide⟩
  intro e r h
  obtain ⟨v, -, -, -, -, hsl, hel, -⟩ := rowOf_inv h
  obtain ⟨s, ts, z, tz, hs, hts, hz, htz, hout⟩ := startLocalCell_inv hsl
  obtain ⟨s2, ts2, z2, tz2, hs2, hts2, hz2, htz2, hout2⟩ := endLocalCell_inv hel
  rw [hz] at hz2
  cases Option.some.inj hz2
  rw [htz] at htz2
  cases Option.some.inj htz2
  exact ⟨s, ts, z, tz, s2, ts2, hs, hts, hz, htz, hout, hs2, hts2, hout2⟩

/-- The row evFull formats to, used to instantiate the C6 theorem. -/
def evFullRow : EventRow :=
  ⟨"Music Festival", 5000, "concerts", "01-Jun-2024 16:00", "01-Jun-2024 19:00",
   "01-Jun-2024 21:00", "Arena", "1 Main St", "zzw-222@627-wc8-7h5", "$1,234", "$568"⟩

theorem c6_timezone_per_record_witness :
    ∃ s ts z tz s2 ts2, evFull.start = some s ∧ parse_date s = some ts ∧
      evFull.timezone = some z ∧ pytz_timezone z = some tz ∧
      evFullRow.start_local = localFormat tz ts ∧ evFull.end_ = some s2 ∧
      parse_date s2 = some ts2 ∧ evFullRow.end_local = localFormat tz ts2 :=
  c6_timezone_per_record.1 evFull evFullRow (by decide)

/-- C7: a successful batch yields exactly one row per record in input order
(no sorting, filtering, or deduplication); the venue columns come from the
first entity of type "venue" in the record's entities list, and are both
empty strings when no venue entity exists. -/
theorem c7_order_and_venue :
    (∀ evs rows, show_events_list evs = some rows →
      rows.length = evs.length ∧
        ∀ i (hi : i < evs.length) (hri : i < rows.length),
          rowOf (evs.get ⟨i, hi⟩) = some (rows.get ⟨i, hri⟩)) ∧
    (∀ e r es, rowOf e = some r → e.entities = some es →
      ((∀ x ∈ es, x.type ≠ some "venue") →
        r.venue_name = "" ∧ r.venue_address = "") ∧
      (∀ ven pre post, es = pre ++ ven :: post → ven.type = some "venue" →
        (∀ x ∈ pre, x.type ≠ some "venue") →
        ven.name = some r.venue_name ∧ ven.formatted_address = some r.venue_address)) := by
  constructor
  · intro evs rows h
    exact show_events_list_get h
  · intro e r es h hes
    obtain ⟨v, hv, -, -, -, -, -, -, hvn, hva, -⟩ := rowOf_inv h
    have hfv : findVenue es = some v := by
      rw [venueOf, hes] at hv
      exact hv
    constructor
    · intro hnov
      cases v with
      | none => exact ⟨(Option.some.inj hvn).symm, (Option.some.inj hva).symm⟩
      | some ven =>
        obtain ⟨hm, hty⟩ := findVenue_some_venue hfv
        exact absurd hty (hnov ven hm)
    · intro ven pre post heq hty hpre
      subst heq
      have hv' := findVenue_first hfv hpre hty
      subst hv'
      exact ⟨hvn, hva⟩

/-- The rows the C7 witness batch formats to. -/
def c7Rows : List EventRow := (show_events_list [evFull, evNoVenue]).getD []

theorem c7_order_and_venue_witness : c7Rows.length = [evFull, evNoVenue].length :=
  (c7_order_and_venue.1 [evFull, evNoVenue] c7Rows (by decide)).1
